import Mathlib

/-!
# PlagiarismCheck (CopyLess) — frontend check-report pipeline, shallowly embedded

This file embeds the result-shaping logic of the React frontend of the
PlagiarismCheck repository and proves properties of it:

* `normalizeWebResults` (frontend/src/App.jsx, lines 12–43): turns the raw
  web-comparison matches returned by the backend into the local-style
  check-report shape consumed by the UI.
* `handleSubmit` (frontend/src/App.jsx, lines 55–104): the submit handler,
  modelled as a pure transition on the component state, parameterised by the
  outcome of the `fetch` call.
* `MatchSnippet` (frontend/src/components/MatchSnippet.jsx, and the two older
  copies kept in the repository): the per-match render logic, modelled as a
  pure function from a match to the data it renders (label, styling classes,
  icon choice, displayed score, truncated source preview).

Numbers are modelled as `ℚ` (the JS code performs only field access,
`Math.max`, `*`, and `toFixed(2)` on them).  JS strings are modelled as `String`
with explicit char-list based `substring` / `length` / `trim`, matching the
sequence-of-code-unit view the JS code relies on.  A JSON value that may be
absent (`undefined` / `null`) is modelled as an `Option`.
-/

namespace CopyLess

/-! ## JS primitive helpers -/

/-- `Number(x.toFixed(2))`: round to two decimal digits, ties away from zero
for the non-negative values that occur here (ECMAScript picks the larger
candidate integer). -/
def jsToFixed2 (x : ℚ) : ℚ := (⌊x * 100 + 1/2⌋ : ℚ) / 100

/-- `s.substring(0, n)` on a JS string: the first `n` code units. -/
def jsSubstring (s : String) (n : Nat) : String := String.mk (s.data.take n)

/-- `s.length` on a JS string. -/
def jsLength (s : String) : Nat := s.data.length

/-- `s.trim()` on a JS string: strip leading and trailing whitespace. -/
def jsTrim (s : String) : String :=
  String.mk (((s.data.dropWhile Char.isWhitespace).reverse.dropWhile
      Char.isWhitespace).reverse)

/-- JS `a || d` for a possibly-absent string: the default replaces both an
absent value and the empty (falsy) string. -/
def jsOrString (v : Option String) (d : String) : String :=
  match v with
  | none => d
  | some t => if t = "" then d else t

/-- `Math.max(x, ...l)` over a non-empty collection of numbers, written with
the head element made explicit. -/
def jsMax (a : ℚ) (l : List ℚ) : ℚ := l.foldl max a

/-! ## Data model (shapes used by frontend/src/App.jsx) -/

/-- One raw web-comparison match as returned by `POST /api/web/compare`;
`score` is on a 0.0–1.0 scale per the comment in `normalizeWebResults`. Every
field may be absent in the raw JSON. -/
structure WebMatch where
  score : Option ℚ
  snippet : Option String
  url : Option String
  title : Option String
  deriving DecidableEq

/-- One match in the shape consumed by the UI (`MatchSnippet`): the fields set
by `normalizeWebResults` and delivered by the local-corpus backend. -/
structure Match where
  query_text : String
  matched_text : String
  similarity_score : ℚ
  match_type : String
  url : Option String
  title : Option String
  deriving DecidableEq

/-- The check-report shape stored in the `results` state: the object literal
built by `normalizeWebResults` and by the local-corpus branch of
`handleSubmit`. -/
structure CheckReport where
  overall_similarity : ℚ
  lexical_breakdown : ℚ
  semantic_breakdown : ℚ
  processing_time_s : ℚ
  «matches» : List Match
  deriving DecidableEq

/-! ## normalizeWebResults (App.jsx lines 12–43) -/

/-- `m.score ?? 0` (nullish coalescing: only an absent score becomes 0). -/
def webScore (m : WebMatch) : ℚ := m.score.getD 0

/-- The element-wise conversion inside `webMatches.map((m) => ({...}))`. -/
def toWebMatchEntry (inputText : String) (m : WebMatch) : Match :=
  { query_text := inputText
    matched_text := jsOrString m.snippet ""
    similarity_score := webScore m * 100
    match_type := "web_semantic"
    url := m.url
    title := m.title }

/-- The zero report returned when `webMatches` is not an array or is empty. -/
def zeroReport : CheckReport :=
  { overall_similarity := 0
    lexical_breakdown := 0
    semantic_breakdown := 0
    processing_time_s := 0
    «matches» := [] }

/-- `normalizeWebResults(inputText, webMatches)` from App.jsx.  The argument
`webMatches` is `none` when the raw JSON value is not an array
(`!Array.isArray(webMatches)`). -/
def normalizeWebResults (inputText : String) (webMatches : Option (List WebMatch)) :
    CheckReport :=
  match webMatches with
  | none => zeroReport
  | some [] => zeroReport
  | some (m0 :: rest) =>
      let maxScore := jsMax (webScore m0) (rest.map webScore)
      let overallPct := jsToFixed2 (maxScore * 100)
      { overall_similarity := overallPct
        lexical_breakdown := 0
        semantic_breakdown := overallPct
        processing_time_s := 0
        «matches» := (m0 :: rest).map (toWebMatchEntry inputText) }

/-! ## handleSubmit (App.jsx lines 55–104), as a state transition -/

/-- The component state manipulated by `handleSubmit` / `handleClear`. -/
structure AppState where
  inputText : String
  results : Option CheckReport
  isLoading : Bool
  error : Option String
  mode : String
  deriving DecidableEq

/-- The JSON body of the backend response, restricted to the fields the
handler reads.  `webMatches` is the same value parsed as an array of raw web
matches (none when it is not an array); the remaining fields are read in the
local-corpus branch. -/
structure ResponseData where
  detail : Option String
  webMatches : Option (List WebMatch)
  overall_similarity : ℚ
  lexical_breakdown : ℚ
  semantic_breakdown : ℚ
  processing_time_s : ℚ
  «matches» : Option (List Match)

/-- Outcome of `await fetch(...)` / `await response.json()`: either the pair
(ok-flag, parsed body), or a thrown error (network failure, JSON failure)
carrying its message. -/
inductive FetchOutcome where
  | threw (msg : String)
  | responded (ok : Bool) (data : ResponseData)

/-- The fallback error message in `throw new Error(data.detail || ...)`. -/
def fallbackErrorMessage : String := "Failed to connect to the backend API."

/-- The object literal stored by the local-corpus branch of `handleSubmit`:
the structured response kept as-is, with `data.matches || []` for the match
list. -/
def localReport (data : ResponseData) : CheckReport :=
  { overall_similarity := data.overall_similarity
    lexical_breakdown := data.lexical_breakdown
    semantic_breakdown := data.semantic_breakdown
    processing_time_s := data.processing_time_s
    «matches» := data.«matches».getD [] }

/-- `handleSubmit` from App.jsx as a pure transition: given the state at the
time of submission and the fetch outcome, it returns the final state (after
the `finally` block) together with a flag recording whether a network request
was issued.  The early `if (!inputText.trim()) return;` leaves the state
untouched and issues no request. -/
def handleSubmit (s : AppState) (outcome : FetchOutcome) : AppState × Bool :=
  if jsTrim s.inputText = "" then
    (s, false)
  else
    let s1 : AppState := { s with isLoading := true, error := none, results := none }
    let s2 : AppState :=
      match outcome with
      | FetchOutcome.threw msg => { s1 with error := some msg }
      | FetchOutcome.responded ok data =>
          if ok then
            if s.mode = "web_comparison" then
              { s1 with results := some (normalizeWebResults s.inputText data.webMatches) }
            else
              { s1 with results := some (localReport data) }
          else
            { s1 with error := some (jsOrString data.detail fallbackErrorMessage) }
    ({ s2 with isLoading := false }, true)

/-! ## MatchSnippet render logic -/

/-- The data a `MatchSnippet` version renders for a match: type label, tint and
border class strings, which icon is shown (`Zap` for the lexical icon, `Brain`
otherwise), the numeric score whose `toFixed(1)` is displayed, and the
truncated source preview. -/
structure RenderData where
  label : String
  bgClass : String
  borderClass : String
  iconZap : Bool
  score : ℚ
  preview : String
  deriving DecidableEq

/-- The source-preview expression shared by all `MatchSnippet` versions:
`text.length > limit ? text.substring(0, limit) + '...' : text`. -/
def truncatePreview (limit : Nat) (text : String) : String :=
  if limit < jsLength text then jsSubstring text limit ++ "..." else text

/-- `normalizedScore` from the current `MatchSnippet.jsx` (lines 52–54):
`isWeb && rawScore <= 1 ? rawScore * 100 : rawScore`. -/
def normalizedScore (m : Match) : ℚ :=
  if m.match_type = "web_semantic" ∧ m.similarity_score ≤ 1 then
    m.similarity_score * 100
  else
    m.similarity_score

/-- Render data of the current `frontend/src/components/MatchSnippet.jsx`
(three-way classification: web / lexical / semantic-default). -/
def matchSnippetRender (m : Match) : RenderData :=
  { label :=
      if m.match_type = "web_semantic" then "Web Source Match"
      else if m.match_type = "lexical" then "Lexical match (direct overlap)"
      else "Semantic match (similar meaning)"
    bgClass :=
      if m.match_type = "web_semantic" then "bg-match-semantic bg-sky-50/80"
      else if m.match_type = "lexical" then "bg-match-lexical bg-red-50/80"
      else "bg-match-semantic bg-sky-50/80"
    borderClass :=
      if m.match_type = "web_semantic" then "border-sky-500"
      else if m.match_type = "lexical" then "border-red-500"
      else "border-sky-500"
    iconZap := m.match_type == "lexical"
    score := normalizedScore m
    preview := truncatePreview 180 m.matched_text }

/-- Render data of the first `MatchSnippet` copy in `src/unnamed/part_000`
(lines 15–58): two-way classification, older labels, 150-character preview,
raw score. -/
def matchSnippetRenderOld1 (m : Match) : RenderData :=
  { label :=
      if m.match_type = "lexical" then "Lexical Match (Direct)"
      else "Semantic Match (Meaning)"
    bgClass :=
      if m.match_type = "lexical" then "bg-match-lexical" else "bg-match-semantic"
    borderClass :=
      if m.match_type = "lexical" then "border-red-400" else "border-blue-400"
    iconZap := m.match_type == "lexical"
    score := m.similarity_score
    preview := truncatePreview 150 m.matched_text }

/-- Render data of the second `MatchSnippet` copy in `src/unnamed/part_000`
(lines 73–132): two-way classification, current labels and classes,
180-character preview, raw score. -/
def matchSnippetRenderOld2 (m : Match) : RenderData :=
  { label :=
      if m.match_type = "lexical" then "Lexical match (direct overlap)"
      else "Semantic match (similar meaning)"
    bgClass :=
      if m.match_type = "lexical" then "bg-match-lexical bg-red-50/80"
      else "bg-match-semantic bg-sky-50/80"
    borderClass :=
      if m.match_type = "lexical" then "border-red-500" else "border-sky-500"
    iconZap := m.match_type == "lexical"
    score := m.similarity_score
    preview := truncatePreview 180 m.matched_text }

/-! ## Scoring-weight configuration (backend, not under the frontend sources) -/

/-- Modelled from the spec: the scoring-weight configuration
(`WEIGHT_LEXICAL`, `WEIGHT_SEMANTIC` live in the backend configuration, which
is not among the available sources); the spec constrains only their sum:
`WEIGHT_LEXICAL + WEIGHT_SEMANTIC = 1.0`, enforced at configuration-load
time. -/
def validWeights (wLex wSem : ℚ) : Prop := wLex + wSem = 1

/-! ## Shared helper lemmas -/

/-- Evaluate `jsToFixed2` by exhibiting the rounded integer numerator. -/
theorem jsToFixed2_eval (x : ℚ) (n : ℤ) (h1 : (n : ℚ) ≤ x * 100 + 1/2)
    (h2 : x * 100 + 1/2 < n + 1) : jsToFixed2 x = (n : ℚ) / 100 := by
  unfold jsToFixed2
  rw [Int.floor_eq_iff.mpr ⟨h1, by exact_mod_cast h2⟩]

/-- `jsToFixed2` keeps `[0, 100]` stable. -/
theorem jsToFixed2_bounds (x : ℚ) (h0 : 0 ≤ x) (h1 : x ≤ 100) :
    0 ≤ jsToFixed2 x ∧ jsToFixed2 x ≤ 100 := by
  unfold jsToFixed2
  have hlow : (0 : ℤ) ≤ ⌊x * 100 + 1/2⌋ := by
    apply Int.le_floor.mpr
    push_cast
    linarith
  have hup : ⌊x * 100 + 1/2⌋ ≤ 10000 := by
    have hfl : (⌊x * 100 + 1/2⌋ : ℚ) ≤ x * 100 + 1/2 := Int.floor_le _
    have : (⌊x * 100 + 1/2⌋ : ℚ) < 10001 := by linarith
    exact_mod_cast Int.lt_add_one_iff.mp (by exact_mod_cast this)
  constructor
  · positivity
  · have : (⌊x * 100 + 1/2⌋ : ℚ) ≤ 10000 := by exact_mod_cast hup
    linarith

/-- `jsMax` of values in an interval stays in the interval. -/
theorem jsMax_bounds (lo hi a : ℚ) (l : List ℚ) (ha : lo ≤ a ∧ a ≤ hi)
    (hl : ∀ b ∈ l, lo ≤ b ∧ b ≤ hi) : lo ≤ jsMax a l ∧ jsMax a l ≤ hi := by
  induction l generalizing a with
  | nil => exact ha
  | cons b t ih =>
      have hb := hl b (List.mem_cons_self b t)
      have ht : ∀ c ∈ t, lo ≤ c ∧ c ≤ hi := fun c hc => hl c (List.mem_cons_of_mem b hc)
      have hmax : lo ≤ max a b ∧ max a b ≤ hi :=
        ⟨le_max_of_le_left ha.1, max_le ha.2 hb.2⟩
      simpa [jsMax, List.foldl_cons] using ih (max a b) hmax ht

/-- Splitting a JS string at a substring boundary. -/
theorem jsSubstring_append_rest (s : String) (n : Nat) :
    s = jsSubstring s n ++ String.mk (s.data.drop n) := by
  cases s with
  | mk d =>
      show String.mk d = String.mk (d.take n ++ d.drop n)
      exact congrArg String.mk (List.take_append_drop n d).symm

/-! ## C1 — score bounds of the web-mode report -/

/-- C1 counterexample: the claim quantifies over every list of raw web
matches, but `normalizeWebResults` never clamps; a raw score of 2 (outside
the 0.0–1.0 contract) yields `overall_similarity = 200`, outside `[0, 100]`. -/
theorem normalizeWebResults_bounds_counterexample :
    ¬ ((normalizeWebResults "sample text"
        (some [⟨some 2, none, none, none⟩])).overall_similarity ≤ 100) := by
  have hmax : jsMax (webScore ⟨some 2, none, none, none⟩)
      (List.map webScore []) = 2 := by
    simp [jsMax, webScore]
  have hval : (normalizeWebResults "sample text"
      (some [⟨some 2, none, none, none⟩])).overall_similarity = 200 := by
    show jsToFixed2 (jsMax (webScore ⟨some 2, none, none, none⟩)
        (List.map webScore []) * 100) = 200
    rw [hmax, jsToFixed2_eval (2 * 100) 20000 (by norm_num) (by norm_num)]
    norm_num
  rw [hval]
  norm_num

/-- C1 (amended): provided every raw web-match score lies in `[0, 1]` (the
0.0–1.0 scale the code's comment assumes of the web backend), the report
built by `normalizeWebResults` has `overall_similarity`, `lexical_breakdown`
and `semantic_breakdown` in `[0, 100]`, and every match in it has
`similarity_score` in `[0, 100]`. -/
theorem normalizeWebResults_bounds (t : String) (ms : List WebMatch)
    (h : ∀ m ∈ ms, 0 ≤ webScore m ∧ webScore m ≤ 1) :
    (0 ≤ (normalizeWebResults t (some ms)).overall_similarity ∧
      (normalizeWebResults t (some ms)).overall_similarity ≤ 100) ∧
    (0 ≤ (normalizeWebResults t (some ms)).lexical_breakdown ∧
      (normalizeWebResults t (some ms)).lexical_breakdown ≤ 100) ∧
    (0 ≤ (normalizeWebResults t (some ms)).semantic_breakdown ∧
      (normalizeWebResults t (some ms)).semantic_breakdown ≤ 100) ∧
    ∀ mm ∈ (normalizeWebResults t (some ms)).«matches»,
      0 ≤ mm.similarity_score ∧ mm.similarity_score ≤ 100 := by
  cases ms with
  | nil =>
      simp [normalizeWebResults, zeroReport]
  | cons m0 rest =>
      have h0 := h m0 (List.mem_cons_self m0 rest)
      have hrest : ∀ b ∈ rest.map webScore, 0 ≤ b ∧ b ≤ 1 := by
        intro b hb
        rcases List.mem_map.mp hb with ⟨m, hm, rfl⟩
        exact h m (List.mem_cons_of_mem m0 hm)
      have hmax := jsMax_bounds 0 1 (webScore m0) (rest.map webScore) h0 hrest
      have hpct := jsToFixed2_bounds (jsMax (webScore m0) (rest.map webScore) * 100)
        (by linarith [hmax.1]) (by linarith [hmax.2])
      refine ⟨?_, ?_, ?_, ?_⟩
      · show 0 ≤ jsToFixed2 (jsMax (webScore m0) (rest.map webScore) * 100) ∧
          jsToFixed2 (jsMax (webScore m0) (rest.map webScore) * 100) ≤ 100
        exact hpct
      · show (0 : ℚ) ≤ 0 ∧ (0 : ℚ) ≤ 100
        norm_num
      · show 0 ≤ jsToFixed2 (jsMax (webScore m0) (rest.map webScore) * 100) ∧
          jsToFixed2 (jsMax (webScore m0) (rest.map webScore) * 100) ≤ 100
        exact hpct
      · intro mm hmm
        have hmm' : mm ∈ (m0 :: rest).map (toWebMatchEntry t) := hmm
        rcases List.mem_map.mp hmm' with ⟨m, hm, rfl⟩
        have hmsc := h m hm
        constructor
        · show 0 ≤ webScore m * 100
          linarith [hmsc.1]
        · show webScore m * 100 ≤ 100
          linarith [hmsc.2]

/-- C1 witness: the amended bound theorem applied at a concrete in-range
input. -/
theorem normalizeWebResults_bounds_witness :
    (0 ≤ (normalizeWebResults "t"
        (some [⟨some (1/2), none, none, none⟩])).overall_similarity ∧
      (normalizeWebResults "t"
        (some [⟨some (1/2), none, none, none⟩])).overall_similarity ≤ 100) ∧
    (0 ≤ (normalizeWebResults "t"
        (some [⟨some (1/2), none, none, none⟩])).lexical_breakdown ∧
      (normalizeWebResults "t"
        (some [⟨some (1/2), none, none, none⟩])).lexical_breakdown ≤ 100) ∧
    (0 ≤ (normalizeWebResults "t"
        (some [⟨some (1/2), none, none, none⟩])).semantic_breakdown ∧
      (normalizeWebResults "t"
        (some [⟨some (1/2), none, none, none⟩])).semantic_breakdown ≤ 100) ∧
    ∀ mm ∈ (normalizeWebResults "t"
        (some [⟨some (1/2), none, none, none⟩])).«matches»,
      0 ≤ mm.similarity_score ∧ mm.similarity_score ≤ 100 :=
  normalizeWebResults_bounds "t" [⟨some (1/2), none, none, none⟩]
    (by intro m hm; rw [List.mem_singleton.mp hm]; norm_num [webScore])

/-! ## C2 — weighted-sum equation -/

/-- C2 counterexample: with spec-conformant weights `WEIGHT_LEXICAL = 7/10`,
`WEIGHT_SEMANTIC = 3/10` (their sum is 1.0), the report `normalizeWebResults`
builds for a single raw match of score 0.5 has `overall_similarity = 50` but
`WEIGHT_LEXICAL * lexical_breakdown + WEIGHT_SEMANTIC * semantic_breakdown
 = 0.7 * 0 + 0.3 * 50 = 15`, so the claimed equation fails on this report. -/
theorem normalizeWebResults_weighted_sum_counterexample :
    validWeights (7/10) (3/10) ∧
    (normalizeWebResults "t"
        (some [⟨some (1/2), none, none, none⟩])).overall_similarity ≠
      7/10 * (normalizeWebResults "t"
          (some [⟨some (1/2), none, none, none⟩])).lexical_breakdown +
      3/10 * (normalizeWebResults "t"
          (some [⟨some (1/2), none, none, none⟩])).semantic_breakdown := by
  have h50 : (normalizeWebResults "t"
      (some [⟨some (1/2), none, none, none⟩])).overall_similarity = 50 := by
    show jsToFixed2 (jsMax (webScore ⟨some (1/2), none, none, none⟩)
        (List.map webScore []) * 100) = 50
    have hm : jsMax (webScore ⟨some (1/2), none, none, none⟩)
        (List.map webScore []) = 1/2 := by simp [jsMax, webScore]
    rw [hm, jsToFixed2_eval (1/2 * 100) 5000 (by norm_num) (by norm_num)]
    norm_num
  constructor
  · show (7 : ℚ)/10 + 3/10 = 1
    norm_num
  · have hlex : (normalizeWebResults "t"
        (some [⟨some (1/2), none, none, none⟩])).lexical_breakdown = 0 := rfl
    have hsem : (normalizeWebResults "t"
        (some [⟨some (1/2), none, none, none⟩])).semantic_breakdown =
        (normalizeWebResults "t"
          (some [⟨some (1/2), none, none, none⟩])).overall_similarity := rfl
    rw [hlex, hsem, h50]
    norm_num

/-- C2 (amended): every report built by `normalizeWebResults` has
`lexical_breakdown = 0` and `semantic_breakdown = overall_similarity`, so for
weights summing to 1.0 the equation
`overall = WEIGHT_LEXICAL * lexical + WEIGHT_SEMANTIC * semantic` holds for
such a report exactly when `WEIGHT_LEXICAL * overall_similarity = 0` — in
particular always in the degenerate zero-report case, and for every report
when the lexical weight is 0. -/
theorem normalizeWebResults_weighted_sum (wLex wSem : ℚ) (hw : validWeights wLex wSem)
    (t : String) (wm : Option (List WebMatch)) :
    (normalizeWebResults t wm).lexical_breakdown = 0 ∧
    (normalizeWebResults t wm).semantic_breakdown =
      (normalizeWebResults t wm).overall_similarity ∧
    ((normalizeWebResults t wm).overall_similarity =
        wLex * (normalizeWebResults t wm).lexical_breakdown +
        wSem * (normalizeWebResults t wm).semantic_breakdown ↔
      wLex * (normalizeWebResults t wm).overall_similarity = 0) := by
  have hw1 : wLex + wSem = 1 := hw
  have hlex : (normalizeWebResults t wm).lexical_breakdown = 0 := by
    rcases wm with _ | ms
    · rfl
    · cases ms <;> rfl
  have hsem : (normalizeWebResults t wm).semantic_breakdown =
      (normalizeWebResults t wm).overall_similarity := by
    rcases wm with _ | ms
    · rfl
    · cases ms <;> rfl
  refine ⟨hlex, hsem, ?_⟩
  rw [hlex, hsem]
  constructor
  · intro h
    linear_combination h + (normalizeWebResults t wm).overall_similarity * hw1
  · intro h
    linear_combination h - (normalizeWebResults t wm).overall_similarity * hw1

/-- C2 witness: the amended statement applied at weights (0.7, 0.3) and the
degenerate input, where the equation does hold (all terms are 0). -/
theorem normalizeWebResults_weighted_sum_witness :
    (normalizeWebResults "t" none).lexical_breakdown = 0 ∧
    (normalizeWebResults "t" none).semantic_breakdown =
      (normalizeWebResults "t" none).overall_similarity ∧
    ((normalizeWebResults "t" none).overall_similarity =
        7/10 * (normalizeWebResults "t" none).lexical_breakdown +
        3/10 * (normalizeWebResults "t" none).semantic_breakdown ↔
      7/10 * (normalizeWebResults "t" none).overall_similarity = 0) :=
  normalizeWebResults_weighted_sum (7/10) (3/10) (by norm_num [validWeights]) "t" none

/-! ## C3 — degenerate no-match input -/

/-- C3: when the raw web-match value is not an array or is the empty array,
`normalizeWebResults` returns the zero report: no matches, all three scores 0,
and a well-defined processing duration (0). -/
theorem normalizeWebResults_degenerate (t : String) (wm : Option (List WebMatch))
    (h : wm = none ∨ wm = some []) :
    (normalizeWebResults t wm).«matches» = [] ∧
    (normalizeWebResults t wm).overall_similarity = 0 ∧
    (normalizeWebResults t wm).lexical_breakdown = 0 ∧
    (normalizeWebResults t wm).semantic_breakdown = 0 ∧
    (normalizeWebResults t wm).processing_time_s = 0 := by
  rcases h with rfl | rfl <;> exact ⟨rfl, rfl, rfl, rfl, rfl⟩

/-- C3 witness: the degenerate theorem applied to a non-array raw value. -/
theorem normalizeWebResults_degenerate_witness :
    (normalizeWebResults "x" none).«matches» = [] ∧
    (normalizeWebResults "x" none).overall_similarity = 0 ∧
    (normalizeWebResults "x" none).lexical_breakdown = 0 ∧
    (normalizeWebResults "x" none).semantic_breakdown = 0 ∧
    (normalizeWebResults "x" none).processing_time_s = 0 :=
  normalizeWebResults_degenerate "x" none (Or.inl rfl)

/-! ## C4 — match_type values -/

/-- C4 counterexample: a check in web-comparison mode produces a match whose
`match_type` is `web_semantic`, which is neither `lexical` nor `semantic`, so
the matches array delivered to the UI is not restricted to those two values. -/
theorem match_type_two_values_counterexample :
    (normalizeWebResults "t"
        (some [⟨some (1/2), some "src", none, none⟩])).«matches».map
      (fun m => m.match_type) = ["web_semantic"] ∧
    ¬ ("web_semantic" = "lexical" ∨ "web_semantic" = "semantic") := by
  exact ⟨rfl, by decide⟩

/-- C4 (amended): every match created by `normalizeWebResults` carries the
third kind `web_semantic`; together with the backend values this makes the
externally visible `match_type` one of exactly three values
(`lexical`, `semantic`, `web_semantic`), not two. -/
theorem normalizeWebResults_match_type_web (t : String) (wm : Option (List WebMatch))
    (m : Match) (h : m ∈ (normalizeWebResults t wm).«matches») :
    m.match_type = "web_semantic" := by
  rcases wm with _ | ms
  · simp [normalizeWebResults, zeroReport] at h
  · cases ms with
    | nil => simp [normalizeWebResults, zeroReport] at h
    | cons m0 rest =>
        have h' : m ∈ (m0 :: rest).map (toWebMatchEntry t) := h
        rcases List.mem_map.mp h' with ⟨w, _, rfl⟩
        rfl

/-- C4 witness: the amended theorem applied to a concrete produced match. -/
theorem normalizeWebResults_match_type_web_witness :
    toWebMatchEntry "t" ⟨some 1, none, none, none⟩ ∈
      (normalizeWebResults "t" (some [⟨some 1, none, none, none⟩])).«matches» ∧
    (toWebMatchEntry "t" ⟨some 1, none, none, none⟩).match_type = "web_semantic" := by
  have hmem : toWebMatchEntry "t" ⟨some 1, none, none, none⟩ ∈
      (normalizeWebResults "t" (some [⟨some 1, none, none, none⟩])).«matches» := by
    show toWebMatchEntry "t" ⟨some 1, none, none, none⟩ ∈
      [toWebMatchEntry "t" ⟨some 1, none, none, none⟩]
    exact List.mem_singleton.mpr rfl
  exact ⟨hmem, normalizeWebResults_match_type_web "t" _ _ hmem⟩

/-! ## C5 — ordering of the matches collection -/

/-- C5 counterexample: `normalizeWebResults` does not sort; feeding it raw
matches with ascending scores (0.1 then 0.9) yields a matches array whose
similarity scores ascend (10 then 90), violating the claimed
descending-similarity ordering. -/
theorem matches_sorted_desc_counterexample :
    ¬ ((normalizeWebResults "t" (some [⟨some (1/10), none, none, none⟩,
        ⟨some (9/10), none, none, none⟩])).«matches».Pairwise
      (fun a b => b.similarity_score ≤ a.similarity_score)) := by
  intro hp
  have hp' : (((⟨some (1/10), none, none, none⟩ : WebMatch) ::
        [⟨some (9/10), none, none, none⟩]).map (toWebMatchEntry "t")).Pairwise
      (fun a b => b.similarity_score ≤ a.similarity_score) := hp
  rw [List.map_cons, List.pairwise_cons] at hp'
  have hle := hp'.1 (toWebMatchEntry "t" ⟨some (9/10), none, none, none⟩)
    (by simp)
  have hnum : (9/10 : ℚ) * 100 ≤ (1/10 : ℚ) * 100 := hle
  norm_num at hnum

/-- C5 (amended): the matches array built by `normalizeWebResults` preserves
the order of the raw web-match list — its similarity scores are exactly the
raw scores scaled by 100, in the same positions; it is sorted descending only
when the input already was. -/
theorem normalizeWebResults_order_preserved (t : String) (ms : List WebMatch) :
    (normalizeWebResults t (some ms)).«matches».map (fun m => m.similarity_score) =
      ms.map (fun m => webScore m * 100) := by
  cases ms with
  | nil => rfl
  | cons m0 rest =>
      show ((m0 :: rest).map (toWebMatchEntry t)).map (fun m => m.similarity_score) = _
      rw [List.map_map]
      rfl

/-! ## C6 — atomic failure of a check request -/

/-- C6: when the submission goes through (non-blank input) and the backend
response is an error status or the processing throws, `handleSubmit` leaves
the stored results empty (`setResults(null)` from the start of the attempt is
never overwritten) and surfaces an error message — the thrown message, or for
an error status the backend `detail` field with a fallback when absent or
empty; the error is never silently swallowed. -/
theorem handleSubmit_error_atomic (s : AppState) (o : FetchOutcome)
    (hne : ¬ jsTrim s.inputText = "") :
    (∀ msg, o = FetchOutcome.threw msg →
      (handleSubmit s o).1.results = none ∧ (handleSubmit s o).1.error = some msg) ∧
    (∀ ok d, o = FetchOutcome.responded ok d → ok = false →
      (handleSubmit s o).1.results = none ∧
        (handleSubmit s o).1.error = some (jsOrString d.detail fallbackErrorMessage)) := by
  constructor
  · rintro msg rfl
    simp [handleSubmit, hne]
  · rintro ok d rfl rfl
    simp [handleSubmit, hne]

/-- C6 witness: a throwing fetch on a non-blank submission ends with empty
results and the thrown message surfaced. -/
theorem handleSubmit_error_atomic_witness :
    (handleSubmit ⟨"hello world", none, false, none, "local_corpus"⟩
      (FetchOutcome.threw "boom")).1.results = none ∧
    (handleSubmit ⟨"hello world", none, false, none, "local_corpus"⟩
      (FetchOutcome.threw "boom")).1.error = some "boom" :=
  (handleSubmit_error_atomic ⟨"hello world", none, false, none, "local_corpus"⟩
    (FetchOutcome.threw "boom") (by decide)).1 "boom" rfl

/-! ## C7 — blank input rejected before any request -/

/-- C7: an input that is empty or whitespace-only (the frontend validity
threshold `!inputText.trim()`) is rejected before any network request is
issued (`false` flag) and the whole state — existing results, error and
loading flag — is returned unchanged. -/
theorem handleSubmit_blank_input_noop (s : AppState) (o : FetchOutcome)
    (h : jsTrim s.inputText = "") : handleSubmit s o = (s, false) := by
  simp [handleSubmit, h]

/-- C7 witness: a whitespace-only submission leaves prior results and error
untouched and issues no request. -/
theorem handleSubmit_blank_input_noop_witness :
    handleSubmit ⟨"   ", some zeroReport, false, some "previous error", "local_corpus"⟩
      (FetchOutcome.threw "x") =
    (⟨"   ", some zeroReport, false, some "previous error", "local_corpus"⟩, false) :=
  handleSubmit_blank_input_noop
    ⟨"   ", some zeroReport, false, some "previous error", "local_corpus"⟩
    (FetchOutcome.threw "x") (by decide)

/-! ## C8 — full text retained, truncation only at display time -/

/-- C8: `normalizeWebResults` stores the full matched snippet untruncated,
and the `MatchSnippet` preview truncates only at display time: it equals
`matched_text` when its length is at most 180, else the first 180 characters
followed by an ellipsis — the truncated part being an initial segment of the
retained full text. -/
theorem matchSnippet_preview_truncation (t : String) (ms : List WebMatch) (m : Match) :
    ((normalizeWebResults t (some ms)).«matches».map (fun mm => mm.matched_text) =
      ms.map (fun w => jsOrString w.snippet "")) ∧
    (jsLength m.matched_text ≤ 180 → (matchSnippetRender m).preview = m.matched_text) ∧
    (180 < jsLength m.matched_text →
      (matchSnippetRender m).preview = jsSubstring m.matched_text 180 ++ "...") ∧
    (∃ rest, m.matched_text = jsSubstring m.matched_text 180 ++ rest) := by
  refine ⟨?_, ?_, ?_, ?_⟩
  · cases ms with
    | nil => rfl
    | cons m0 rest =>
        show ((m0 :: rest).map (toWebMatchEntry t)).map (fun mm => mm.matched_text) = _
        rw [List.map_map]
        rfl
  · intro hle
    show truncatePreview 180 m.matched_text = m.matched_text
    unfold truncatePreview
    rw [if_neg (by omega)]
  · intro hgt
    show truncatePreview 180 m.matched_text = jsSubstring m.matched_text 180 ++ "..."
    unfold truncatePreview
    rw [if_pos hgt]
  · exact ⟨String.mk (m.matched_text.data.drop 180), jsSubstring_append_rest _ 180⟩

/-- C8 witness: a stored snippet is kept in full, and a short matched text is
previewed unchanged. -/
theorem matchSnippet_preview_truncation_witness :
    ((normalizeWebResults "t" (some [⟨some 1, some "snip", none, none⟩])).«matches».map
      (fun mm => mm.matched_text) = ["snip"]) ∧
    (matchSnippetRender ⟨"q", "abc", 50, "lexical", none, none⟩).preview = "abc" :=
  ⟨(matchSnippet_preview_truncation "t" [⟨some 1, some "snip", none, none⟩]
      ⟨"q", "abc", 50, "lexical", none, none⟩).1,
    (matchSnippet_preview_truncation "t" [⟨some 1, some "snip", none, none⟩]
      ⟨"q", "abc", 50, "lexical", none, none⟩).2.1 (by decide)⟩

/-! ## C9 — displayed score and the web double rescale -/

/-- C9: the score `MatchSnippet` displays equals the stored
`similarity_score` for lexical and semantic matches; for a `web_semantic`
match with stored score at most 1 it is the stored score times 100 — and
since `normalizeWebResults` already scaled raw web scores to percent, a raw
web similarity of at most 1 percent reaches the screen rescaled twice
(`raw * 100 * 100`). -/
theorem matchSnippet_score_rescale (m : Match) (w : WebMatch) (t : String) :
    ((m.match_type = "lexical" ∨ m.match_type = "semantic") →
      (matchSnippetRender m).score = m.similarity_score) ∧
    (m.match_type = "web_semantic" → m.similarity_score ≤ 1 →
      (matchSnippetRender m).score = m.similarity_score * 100) ∧
    (webScore w ≤ 1/100 →
      (matchSnippetRender (toWebMatchEntry t w)).score = webScore w * 100 * 100) := by
  refine ⟨?_, ?_, ?_⟩
  · intro hty
    show normalizedScore m = m.similarity_score
    have hne : ¬ (m.match_type = "web_semantic" ∧ m.similarity_score ≤ 1) := by
      rintro ⟨h1, -⟩
      rcases hty with h | h <;> rw [h] at h1 <;> exact absurd h1 (by decide)
    unfold normalizedScore
    rw [if_neg hne]
  · intro hty hle
    show normalizedScore m = m.similarity_score * 100
    unfold normalizedScore
    rw [if_pos ⟨hty, hle⟩]
  · intro hle
    have h1 : (toWebMatchEntry t w).similarity_score ≤ 1 := by
      show webScore w * 100 ≤ 1
      linarith
    show normalizedScore (toWebMatchEntry t w) = webScore w * 100 * 100
    unfold normalizedScore
    rw [if_pos ⟨rfl, h1⟩]
    rfl

/-- C9 witness: a lexical match is displayed as stored (55), while a
converted web match of raw score 1/200 (half a percent) is displayed as
`1/200 * 100 * 100 = 50`, a hundred times the genuine percentage. -/
theorem matchSnippet_score_rescale_witness :
    (matchSnippetRender ⟨"q", "mt", 55, "lexical", none, none⟩).score = 55 ∧
    (matchSnippetRender (toWebMatchEntry "t" ⟨some (1/200), none, none, none⟩)).score =
      webScore ⟨some (1/200), none, none, none⟩ * 100 * 100 :=
  ⟨(matchSnippet_score_rescale ⟨"q", "mt", 55, "lexical", none, none⟩
      ⟨some (1/200), none, none, none⟩ "t").1 (Or.inl rfl),
    (matchSnippet_score_rescale ⟨"q", "mt", 55, "lexical", none, none⟩
      ⟨some (1/200), none, none, none⟩ "t").2.2 (by norm_num [webScore])⟩

/-! ## C10 — the three MatchSnippet copies -/

set_option maxRecDepth 4000 in
/-- C10 counterexample: the three `MatchSnippet` versions are not equivalent.
On a `web_semantic` match the current version renders a different label (and
score and preview) from both old copies; and even on a lexical match the two
old copies truncate the preview at different lengths (150 vs 180). -/
theorem matchSnippet_copies_equiv_counterexample :
    (matchSnippetRender
        ⟨"q", String.mk (List.replicate 190 'a'), 1/2, "web_semantic", none, none⟩ ≠
      matchSnippetRenderOld1
        ⟨"q", String.mk (List.replicate 190 'a'), 1/2, "web_semantic", none, none⟩) ∧
    (matchSnippetRender
        ⟨"q", String.mk (List.replicate 190 'a'), 1/2, "web_semantic", none, none⟩ ≠
      matchSnippetRenderOld2
        ⟨"q", String.mk (List.replicate 190 'a'), 1/2, "web_semantic", none, none⟩) ∧
    (matchSnippetRenderOld1
        ⟨"q", String.mk (List.replicate 190 'a'), 1/2, "lexical", none, none⟩ ≠
      matchSnippetRenderOld2
        ⟨"q", String.mk (List.replicate 190 'a'), 1/2, "lexical", none, none⟩) :=
  ⟨fun h => absurd (congrArg RenderData.label h) (by decide),
    fun h => absurd (congrArg RenderData.label h) (by decide),
    fun h => absurd (congrArg RenderData.preview h) (by decide)⟩

/-- C10 (amended): the current `MatchSnippet` and the second copy in
`src/unnamed/part_000` render identically on every match whose `match_type`
is not `web_semantic`; the first copy agrees with them on the icon (and so on
the lexical/semantic classification) and on the displayed score for such
matches, but uses older label texts, other class names, and a 150-character
preview truncation. -/
theorem matchSnippet_current_old2_equiv_off_web (m : Match)
    (h : m.match_type ≠ "web_semantic") :
    matchSnippetRender m = matchSnippetRenderOld2 m ∧
    (matchSnippetRenderOld1 m).iconZap = (matchSnippetRender m).iconZap ∧
    (matchSnippetRenderOld1 m).score = (matchSnippetRender m).score := by
  have hscore : normalizedScore m = m.similarity_score := by
    unfold normalizedScore
    rw [if_neg (fun hc => h hc.1)]
  refine ⟨?_, rfl, ?_⟩
  · unfold matchSnippetRender matchSnippetRenderOld2
    rw [if_neg h, if_neg h, if_neg h, hscore]
  · show m.similarity_score = normalizedScore m
    rw [hscore]

/-- C10 witness: on a concrete lexical match the current component and the
second old copy agree exactly, and the first old copy agrees on icon and
score. -/
theorem matchSnippet_current_old2_equiv_off_web_witness :
    matchSnippetRender ⟨"q", "mt", 42, "lexical", none, none⟩ =
      matchSnippetRenderOld2 ⟨"q", "mt", 42, "lexical", none, none⟩ ∧
    (matchSnippetRenderOld1 ⟨"q", "mt", 42, "lexical", none, none⟩).iconZap =
      (matchSnippetRender ⟨"q", "mt", 42, "lexical", none, none⟩).iconZap ∧
    (matchSnippetRenderOld1 ⟨"q", "mt", 42, "lexical", none, none⟩).score =
      (matchSnippetRender ⟨"q", "mt", 42, "lexical", none, none⟩).score :=
  matchSnippet_current_old2_equiv_off_web ⟨"q", "mt", 42, "lexical", none, none⟩
    (by decide)

end CopyLess
